import Mathlib

/-!
Verification development for the multi-fidelity active-learning repository.

The definitions below are a shallow embedding of the Python sources:
* `src/dataset.py` (class `DataHandler` and the `Data` dataset wrapper),
* `src/regressor/regressor.py` (class `DropoutRegressor`),
* `src/model/gp_models.py` (`initialize_var_dist_sgpr`),
* `src/proxy/acquisition.py`, `src/proxy/ucb.py` (the Proxy variants),
* `src/utils/logger.py` (class `AL_Logger`).

Real tensors of energies are modelled as `List ℚ` (exact arithmetic in place
of floating point); a state row is a `List ℚ`.  Stateful methods become pure
functions from the relevant fields of the object to their new values; the
per-item `np.random.uniform() < 1/10` draws of `update_dataset` are passed in
as an explicit list of booleans (`true` = the draw routed the item to test).
-/

/-- A state row (one row of a states tensor). -/
abbrev St := List ℚ

/-! ### Statistics (src/dataset.py, `DataHandler.get_statistics`, lines 313-322) -/

/-- Mean of a tensor, `torch.mean(y)` (division by zero for the empty tensor is
a float artifact; the code never takes statistics of an empty tensor). -/
def tmean (y : List ℚ) : ℚ := y.sum / (y.length : ℚ)

/-- Maximum of a tensor, `torch.max(y)`; `torch.max` errors on an empty tensor,
the `[]` case is an arbitrary total-function default never relied upon. -/
def tmax : List ℚ → ℚ
  | [] => 0
  | x :: xs => xs.foldl max x

/-- Minimum of a tensor, `torch.min(y)`. -/
def tmin : List ℚ → ℚ
  | [] => 0
  | x :: xs => xs.foldl min x

/-- Unbiased sample variance, the square of `torch.std(y)`.  `torch.std`
returns the square root, which leaves ℚ; no claim reads the `std` entry, so
the statistics record carries the variance instead. -/
def tstdSq (y : List ℚ) : ℚ :=
  (y.map (fun v => (v - tmean y) ^ 2)).sum / ((y.length : ℚ) - 1)

/-- The statistics dictionary `{mean, std, max, min}` built by
`DataHandler.get_statistics` (see `tstdSq` for why `std` is carried squared). -/
structure Stats where
  mean : ℚ
  stdSq : ℚ
  max : ℚ
  min : ℚ
deriving DecidableEq

namespace DataHandler

/-- `DataHandler.get_statistics(y)` (src/dataset.py lines 313-322). -/
def get_statistics (y : List ℚ) : Stats :=
  { mean := tmean y, stdSq := tstdSq y, max := tmax y, min := tmin y }

/-- `DataHandler.normalize` (src/dataset.py lines 324-335), elementwise:
`y = (y - stats["min"]) / (stats["max"] - stats["min"])`. -/
def normalize (s : Stats) (y : ℚ) : ℚ := (y - s.min) / (s.max - s.min)

/-- `DataHandler.denormalize` (src/dataset.py lines 337-348), elementwise:
`y = y * (stats["max"] - stats["min"]) + stats["min"]`. -/
def denormalize (s : Stats) (y : ℚ) : ℚ := y * (s.max - s.min) + s.min

/-- `DataHandler.normalize` mapped over an energies tensor. -/
def normalizeList (s : Stats) (y : List ℚ) : List ℚ := y.map (normalize s)

/-- `DataHandler.denormalize` mapped over an energies tensor. -/
def denormalizeList (s : Stats) (y : List ℚ) : List ℚ := y.map (denormalize s)

/-- `DataHandler.scale_by_target_factor` (src/dataset.py lines 94-99):
multiplies by the target factor; the `-0.0 → 0.0` canonicalization is a
floating-point artifact with no rational counterpart (`-0 = 0` in ℚ). -/
def scale_by_target_factor (factor : ℚ) (data : List ℚ) : List ℚ :=
  data.map (fun x => x * factor)

end DataHandler

/-! ### The `Data` dataset wrapper and `torch.utils.data.DataLoader`
(src/dataset.py lines 17-26 and 509-534) -/

/-- The `Data(Dataset)` class (src/dataset.py lines 17-26): a pair of a states
tensor and an energies tensor. -/
structure TorchData where
  X_data : List St
  y_data : List ℚ
deriving DecidableEq

/-- A `torch.utils.data.DataLoader` as constructed by `get_dataloader`
(src/dataset.py lines 516-532).  Constructing a `DataLoader` does not touch
the dataset, so the `dataset` field may be `none` (Python `None`) without an
immediate error; the failure surfaces on iteration (see `iterate_loader`). -/
structure TorchDataLoader where
  dataset : Option TorchData
  batch_size : ℕ
  shuffle : Bool
deriving DecidableEq

/-- Iterating a `DataLoader`.  When `dataset` is `None`, the sampler calls
`len(None)` on the first batch request and raises
`TypeError: object of type NoneType has no len()`; otherwise the loader yields
the dataset's items (batching/collation, which no claim depends on, is not
modelled further). -/
def iterate_loader (l : TorchDataLoader) : Except String (List (St × ℚ)) :=
  match l.dataset with
  | none => .error "TypeError: object of type NoneType has no len()"
  | some d => .ok (d.X_data.zip d.y_data)

/-! ### DataHandler state and its operations (src/dataset.py lines 29-534) -/

/-- A train or test dataset dictionary `{"states": ..., "energies": ...}`. -/
structure DHData where
  states : List St
  energies : List ℚ
deriving DecidableEq

/-- The fields of a `DataHandler` object that the dataset operations read and
write.  `test_dataset`, `test_data` and `test_stats` are `None` (here `none`)
exactly when the test split is empty (src/dataset.py lines 259-262). -/
structure DHState where
  normalize_data : Bool
  target_factor : ℚ
  train_dataset : DHData
  train_stats : Stats
  train_data : TorchData
  test_dataset : Option DHData
  test_stats : Option Stats
  test_data : Option TorchData
deriving DecidableEq

namespace DataHandler

/-- `DataHandler.preprocess` (src/dataset.py lines 286-311): converts states to
proxy space (the environment's `statetorch2proxy` is the parameter `proxyF`;
the tuple/list container cases both amount to producing one proxy row per
state), computes statistics of the energies, and normalizes the energies iff
`normalize_data`. -/
def preprocess (normalize_data : Bool) (proxyF : St → St) (d : DHData) :
    DHData × Stats :=
  let states := d.states.map proxyF
  let stats := get_statistics d.energies
  let energies := if normalize_data then normalizeList stats d.energies else d.energies
  (⟨states, energies⟩, stats)

/-- The environment-supplied raw data reaching the split dispatch of
`initialise_dataset` (src/dataset.py line 170): the combined `states`/`scores`
and, for the `given` policy, the four explicit split tensors (`none` = Python
`None`). -/
structure InitInput where
  states : List St
  scores : List ℚ
  train_states : Option (List St)
  train_scores : Option (List ℚ)
  test_states : Option (List St)
  test_scores : Option (List ℚ)
deriving DecidableEq

/-- `DataHandler.initialise_dataset` from the target-factor scaling at line 170
of src/dataset.py onward (the preceding part only fetches the raw data, which
is the `inp` parameter here).  `perm` stands for the `torch.randperm` draw of
the `random` policy; `proxyF` for the environment's `statetorch2proxy`.
Returns the resulting `DataHandler` fields, or the raised error:
`ValueError("Split type not implemented")` for an unknown policy and an
`AssertionError` when the `given` policy misses one of its four tensors. -/
def initialise_dataset (split : String) (perm : List ℕ) (train_fraction : ℚ)
    (normalize_data : Bool) (target_factor : ℚ) (proxyF : St → St)
    (inp : InitInput) : Except String DHState := do
  let scores := scale_by_target_factor target_factor inp.scores
  let train_scores0 := inp.train_scores.map (scale_by_target_factor target_factor)
  let test_scores0 := inp.test_scores.map (scale_by_target_factor target_factor)
  let (train_states, train_scores, test_states, test_scores) ←
    if split = "random" then
      let cut := (((inp.states.length : ℚ) * train_fraction).floor).toNat
      let train_index := perm.take cut
      let test_index := perm.drop cut
      Except.ok (train_index.map (fun i => inp.states.getD i []),
        train_index.map (fun i => scores.getD i 0),
        test_index.map (fun i => inp.states.getD i []),
        test_index.map (fun i => scores.getD i 0))
    else if split = "all_train" then
      Except.ok (inp.states, scores, ([] : List St), ([] : List ℚ))
    else if split = "given" then
      match inp.train_states, inp.test_states, train_scores0, test_scores0 with
      | some trs, some tes, some trsc, some tesc => Except.ok (trs, trsc, tes, tesc)
      | _, _, _, _ => Except.error "AssertionError"
    else
      Except.error "Split type not implemented"
  let (train_dataset, train_stats) :=
    preprocess normalize_data proxyF ⟨train_states, train_scores⟩
  let train_data : TorchData := ⟨train_dataset.states, train_dataset.energies⟩
  if 0 < test_states.length then
    let (test_dataset, test_stats) :=
      preprocess normalize_data proxyF ⟨test_states, test_scores⟩
    Except.ok
      { normalize_data := normalize_data
        target_factor := target_factor
        train_dataset := train_dataset
        train_stats := train_stats
        train_data := train_data
        test_dataset := some test_dataset
        test_stats := some test_stats
        test_data := some ⟨test_dataset.states, test_dataset.energies⟩ }
  else
    Except.ok
      { normalize_data := normalize_data
        target_factor := target_factor
        train_dataset := train_dataset
        train_stats := train_stats
        train_data := train_data
        test_dataset := none
        test_stats := none
        test_data := none }

/-- The per-item Bernoulli routing loop of `update_dataset` (src/dataset.py
lines 387-399): each item is routed to test when its `np.random.uniform()`
draw fell below 1/10 (`draws` entry `true`) and to train otherwise.  Returns
`(test items, train items)`. -/
def route (items : List (St × ℚ)) (draws : List Bool) :
    List (St × ℚ) × List (St × ℚ) :=
  let zipped := items.zip draws
  ((zipped.filter (fun p => p.2)).map (fun p => p.1),
   (zipped.filter (fun p => !p.2)).map (fun p => p.1))

/-- `DataHandler.update_dataset` (src/dataset.py lines 350-492), with the CSV
re-saving and plotting elided.  New raw states/energies are converted to proxy
space and target-factor scaled, routed per item to train or test (`draws`),
appended, and when `normalize_data` is set the stored energies are
denormalized at the old statistics before the append and renormalized at the
freshly recomputed statistics afterwards.  All test-side steps are guarded by
`self.test_dataset is not None`; `test_stats` is `None` exactly when
`test_dataset` is, so the guard is modelled by matching on both. -/
def update_dataset (dh : DHState) (proxyF : St → St) (states : List St)
    (energies : List ℚ) (draws : List Bool) : DHState :=
  let energies1 := scale_by_target_factor dh.target_factor energies
  let states_proxy := states.map proxyF
  let routed := route (states_proxy.zip energies1) draws
  let train_energies := routed.2.map (fun p => p.2)
  let train_states_proxy := routed.2.map (fun p => p.1)
  let test_energies := routed.1.map (fun p => p.2)
  let test_states_proxy := routed.1.map (fun p => p.1)
  let trainE0 := if dh.normalize_data then
      denormalizeList dh.train_stats dh.train_dataset.energies
    else dh.train_dataset.energies
  let testDS0 : Option DHData :=
    match dh.test_dataset, dh.test_stats with
    | some td, some ts =>
        some ⟨td.states, if dh.normalize_data then denormalizeList ts td.energies
                         else td.energies⟩
    | _, _ => none
  let trainE1 := trainE0 ++ train_energies
  let trainS1 := dh.train_dataset.states ++ train_states_proxy
  let testDS1 := testDS0.map fun td =>
    (⟨td.states ++ test_states_proxy, td.energies ++ test_energies⟩ : DHData)
  let train_stats := get_statistics trainE1
  let testStats1 := testDS1.map fun td => get_statistics td.energies
  let trainE2 := if dh.normalize_data then normalizeList train_stats trainE1 else trainE1
  let testDS2 :=
    match testDS1, testStats1 with
    | some td, some ts =>
        some (⟨td.states, if dh.normalize_data then normalizeList ts td.energies
                          else td.energies⟩ : DHData)
    | _, _ => none
  { dh with
    train_dataset := ⟨trainS1, trainE2⟩
    train_stats := train_stats
    train_data := ⟨trainS1, trainE2⟩
    test_dataset := testDS2
    test_stats := testStats1
    test_data := testDS2.map fun td => (⟨td.states, td.energies⟩ : TorchData) }

/-- The train-routed (proxy state, scaled energy) pairs of an `update_dataset`
call (derived notation for the `trainItems` of `route`). -/
def new_train_items (dh : DHState) (proxyF : St → St) (states : List St)
    (energies : List ℚ) (draws : List Bool) : List (St × ℚ) :=
  (route ((states.map proxyF).zip
    (scale_by_target_factor dh.target_factor energies)) draws).2

/-- The test-routed (proxy state, scaled energy) pairs of an `update_dataset`
call (derived notation for the `testItems` of `route`). -/
def new_test_items (dh : DHState) (proxyF : St → St) (states : List St)
    (energies : List ℚ) (draws : List Bool) : List (St × ℚ) :=
  (route ((states.map proxyF).zip
    (scale_by_target_factor dh.target_factor energies)) draws).1

/-- `DataHandler.get_dataloader` (src/dataset.py lines 509-534): builds the two
loaders unconditionally over `self.train_data` and `self.test_data` — there is
no `None` guard on the test side. -/
def get_dataloader (dh : DHState) (train_bs test_bs : ℕ)
    (train_shuffle test_shuffle : Bool) : TorchDataLoader × TorchDataLoader :=
  (⟨some dh.train_data, train_bs, train_shuffle⟩,
   ⟨dh.test_data, test_bs, test_shuffle⟩)

end DataHandler

/-! ### DropoutRegressor (src/regressor/regressor.py) -/

/-- Python negative indexing: the index denoted by `hist[-h]` in a list of
length `n` (for `h = 0`, `-0` is just `0`, the first element; for `1 ≤ h ≤ n`
it is `n - h`). -/
def pyNegIdx (n h : ℕ) : ℕ := if h = 0 then 0 else n - h

/-- The element `hist[-h]` (total with default `0`; the code only evaluates it
with `h ≤ len(hist)`, where the default is never used). -/
def pyGetNeg (hist : List ℚ) (h : ℕ) : ℚ := hist.getD (pyNegIdx hist.length h) 0

/-- The slice `hist[-k:]`: the last `min k n` elements, except that `k = 0`
denotes the slice `[0:]`, the whole list. -/
def pyLastSlice (hist : List ℚ) (k : ℕ) : List ℚ :=
  if k = 0 then hist else hist.drop (hist.length - k)

/-- The slice `hist[-history+1:]` from the first convergence criterion:
`[1:]` when `history = 0`, the whole list when `history = 1` (index `-0`),
and the last `history - 1` elements otherwise. -/
def pyTailAfterNeg (hist : List ℚ) (h : ℕ) : List ℚ :=
  if h = 0 then hist.drop 1 else pyLastSlice hist (h - 1)

/-- `np.average` of a 1-d array. -/
def npAverage (xs : List ℚ) : ℚ := xs.sum / (xs.length : ℚ)

namespace DropoutRegressor

/-- The training parameters of `DropoutRegressor` that the convergence logic
reads (src/regressor/regressor.py lines 49-58). -/
structure Config where
  eps : ℚ
  max_epochs : ℕ
  history : ℕ
deriving DecidableEq

/-- `DropoutRegressor.__init__` up to its `assert self.history <=
self.max_epochs` (src/regressor/regressor.py line 58): construction fails
(`AssertionError`, modelled as `none`) before any training state exists when
the assertion is violated. -/
def init (eps : ℚ) (max_epochs history : ℕ) : Option Config :=
  if history ≤ max_epochs then some ⟨eps, max_epochs, history⟩ else none

/-- First convergence criterion of `check_convergence` (src/regressor/
regressor.py lines 201-206): `all(np.asarray(hist[-history+1:]) >
hist[-history])`. -/
def firstCriterion (hist : List ℚ) (history : ℕ) : Bool :=
  (pyTailAfterNeg hist history).all (fun x => decide (pyGetNeg hist history < x))

/-- Second convergence criterion (lines 208-214):
`abs(hist[-history] - np.average(hist[-history:])) / hist[-history] < eps`. -/
def secondCriterion (hist : List ℚ) (history : ℕ) (eps : ℚ) : Bool :=
  decide (|pyGetNeg hist history - npAverage (pyLastSlice hist history)|
    / pyGetNeg hist history < eps)

/-- `DropoutRegressor.check_convergence` (src/regressor/regressor.py lines
196-222): three sequential `if`s, each only ever setting `self.converged`
to `1`; `converged` is the value of the flag on entry. -/
def check_convergence (converged : Bool) (hist : List ℚ)
    (epoch history max_epochs : ℕ) (eps : ℚ) : Bool :=
  let c1 := if firstCriterion hist history then true else converged
  let c2 := if secondCriterion hist history eps then true else c1
  if max_epochs ≤ epoch then true else c2

/-- The epoch loop of `DropoutRegressor.fit` (src/regressor/regressor.py lines
129-152), with the per-epoch held-out errors supplied as the stream `errs`
(`errs e` is the value `self.test` appends to `err_test_hist` at epoch `e`).
`fuel` bounds the remaining iterations (`max_epochs` at the start); returns
the epoch at which the loop breaks with `converged == 1`, or `none` when the
range `1..max_epochs` is exhausted without convergence.  Convergence is
checked only when `epoch > history`. -/
def fit_aux (errs : ℕ → ℚ) (history max_epochs : ℕ) (eps : ℚ) :
    ℕ → ℕ → List ℚ → Option ℕ
  | 0, _, _ => none
  | fuel + 1, epoch, hist =>
    if history < epoch ∧
        check_convergence false (hist ++ [errs epoch]) epoch history
          max_epochs eps then
      some epoch
    else if max_epochs ≤ epoch then none
    else fit_aux errs history max_epochs eps fuel (epoch + 1) (hist ++ [errs epoch])

/-- `DropoutRegressor.fit`'s convergence outcome: the loop runs over epochs
`1 .. max_epochs` with `self.converged = 0` on entry. -/
def fit_converged_epoch (errs : ℕ → ℚ) (history max_epochs : ℕ) (eps : ℚ) :
    Option ℕ :=
  fit_aux errs history max_epochs eps max_epochs 1 []

end DropoutRegressor

/-! ### initialize_var_dist_sgpr (src/model/gp_models.py)

The routine is a matrix computation; the claims about it are settled on its
scalar instantiation (one inducing point, one training point, one task), where
every matrix is `1 × 1` and the Cholesky factor of `K_uu = L·L` is `L` itself.
`noise` is the Gaussian likelihood's variance `σ²`, clamped below by
`noise_lb` (line 381 / 935). -/

namespace Sgpr

/-- `noise.clamp(min=noise_lb)`: the larger of `x` and `lb`. -/
def clamp_min (x lb : ℚ) : ℚ := if x < lb then lb else x

/-- `data_term = kuv.matmul(train_y) / noise` (line 388 / 942). -/
def data_term (kuv y noise : ℚ) : ℚ := kuv * y / noise

/-- Non-batched inner term (line 396 / 950):
`inner_term = kuv @ kuv.transpose(-1, -2) / noise + kuu`. -/
def inner_term_nonbatch (kuu kuv noise : ℚ) : ℚ := kuv * kuv / noise + kuu

/-- Batched inner term (lines 389-394 / 943-948): the noise is wrapped as
`ConstantDiagLazyTensor(noise, ...)` and the chain is
`kuv.matmul(noise_as_lt).matmul(kuv.transpose(-1, -2)) + kuu`, i.e. the noise
matrix is MULTIPLIED into the product. -/
def inner_term_batch (kuu kuv noise : ℚ) : ℚ := kuv * noise * kuv + kuu

/-- `s_mat = kuu_chol.transpose(-1, -2).matmul(inner_term.inv_matmul(
kuu_chol.evaluate()))` (lines 398-400), with `kuu_chol = L`. -/
def s_mat (L inner : ℚ) : ℚ := L * (inner⁻¹ * L)

/-- `mean_param = kuu_chol.transpose(-1, -2).matmul(inner_term.inv_matmul(
data_term))` (lines 403-405). -/
def mean_param (L inner dterm : ℚ) : ℚ := L * (inner⁻¹ * dterm)

/-- The variational covariance the non-batched path stores (its Cholesky root
`s_root` is stored; the covariance it represents is `s_mat`). -/
def s_nonbatch (L kuv noiseRaw noise_lb : ℚ) : ℚ :=
  s_mat L (inner_term_nonbatch (L * L) kuv (clamp_min noiseRaw noise_lb))

/-- The variational covariance the batched path stores. -/
def s_batch (L kuv noiseRaw noise_lb : ℚ) : ℚ :=
  s_mat L (inner_term_batch (L * L) kuv (clamp_min noiseRaw noise_lb))

/-- The routine's own docstring formula (lines 353-355 / 900-902):
`S-bar = L^T (K_uu + σ⁻² K_uv K_vu)⁻¹ L`, at the clamped noise `σ²`. -/
def sbar_doc (L kuv noiseRaw noise_lb : ℚ) : ℚ :=
  L * (L * L + (clamp_min noiseRaw noise_lb)⁻¹ * (kuv * kuv))⁻¹ * L

/-- The docstring formula for the mean (line 355):
`m-bar = S-bar L⁻¹ (K_uv y σ⁻²)`. -/
def mbar_doc (L kuv y noiseRaw noise_lb : ℚ) : ℚ :=
  sbar_doc L kuv noiseRaw noise_lb * L⁻¹ *
    (kuv * y * (clamp_min noiseRaw noise_lb)⁻¹)

/-- The mean the non-batched path stores. -/
def m_nonbatch (L kuv y noiseRaw noise_lb : ℚ) : ℚ :=
  mean_param L (inner_term_nonbatch (L * L) kuv (clamp_min noiseRaw noise_lb))
    (data_term kuv y (clamp_min noiseRaw noise_lb))

/-- The mean the batched path stores (`data_term` still divides by the noise,
only the inner term differs). -/
def m_batch (L kuv y noiseRaw noise_lb : ℚ) : ℚ :=
  mean_param L (inner_term_batch (L * L) kuv (clamp_min noiseRaw noise_lb))
    (data_term kuv y (clamp_min noiseRaw noise_lb))

end Sgpr

/-! ### Proxy layer call sequencing (src/proxy/acquisition.py, src/proxy/ucb.py)

Each `__init__`/`__call__` body is abstracted to the sequence of the
operations relevant to the reload-before-scoring claim: `load_model`
invocations, input preprocessing, and the surrogate evaluation that produces
the score. -/

/-- The operations a proxy method performs, in order. -/
inductive ProxyEvent
  /-- a `load_model` invocation (reload of the persisted surrogate) -/
  | load_model
  /-- input preprocessing (`preprocess_data` / tokenization) -/
  | preprocess
  /-- the surrogate evaluation producing the score -/
  | score
deriving DecidableEq

/-- `acquisition.DropoutRegressor.__call__` (src/proxy/acquisition.py lines
41-62): `self.load_model()`, `self.preprocess_data(inputs)`, then the model
forward pass. -/
def acquisition_DropoutRegressor_call : List ProxyEvent :=
  [.load_model, .preprocess, .score]

/-- `acquisition.UCB.__call__` (src/proxy/acquisition.py lines 72-87):
`self.load_model()`, `self.preprocess_data(inputs)`, then
`forward_with_uncertainty` and the mean/std combination. -/
def acquisition_UCB_call : List ProxyEvent :=
  [.load_model, .preprocess, .score]

/-- `acquisition.BotorchUCB.__call__` (src/proxy/acquisition.py lines
105-113): `self.preprocess_data(inputs)`, `self.load_model()`, then the
`qUpperConfidenceBound` evaluation. -/
def acquisition_BotorchUCB_call : List ProxyEvent :=
  [.preprocess, .load_model, .score]

/-- `ucb.UCB.__init__` (src/proxy/ucb.py lines 15-19): calls
`self.regressor.load_model()` once at construction. -/
def ucb_UCB_init : List ProxyEvent := [.load_model]

/-- `ucb.UCB.__call__` (src/proxy/ucb.py lines 21-36): converts the inputs and
runs `forward_with_uncertainty` — it contains no `load_model` invocation. -/
def ucb_UCB_call : List ProxyEvent := [.preprocess, .score]

/-- `ucb.BotorchUCB.__call__` (src/proxy/ucb.py lines 55-73): tokenizes/
pools the inputs and evaluates the acquisition functional built at
construction — no `load_model` invocation. -/
def ucb_BotorchUCB_call : List ProxyEvent := [.preprocess, .score]

/-- The `__call__` traces of every Proxy variant in the repository. -/
def proxy_call_traces : List (List ProxyEvent) :=
  [acquisition_DropoutRegressor_call, acquisition_UCB_call,
   acquisition_BotorchUCB_call, ucb_UCB_call, ucb_BotorchUCB_call]

/-- A scoring call reloads the persisted surrogate before computing the score:
the trace performs some `load_model` before its first `score` event. -/
def loads_before_score (tr : List ProxyEvent) : Bool :=
  match tr.findIdx? (· = ProxyEvent.load_model), tr.findIdx? (· = ProxyEvent.score) with
  | some i, some j => decide (i < j)
  | _, _ => false

/-! ### Checkpoint persistence (src/utils/logger.py, src/regressor/regressor.py)
-/

/-- An object passed to `torch.save` for a proxy checkpoint: either a bare
state dict (`model.state_dict()`) or a wrapper dict
`{"model_state_dict": ..., "optimizer_state_dict": ...}`.  State dicts
themselves are opaque (`SD`). -/
inductive CkptPayload (SD : Type)
  /-- `torch.save(model.state_dict(), path)` — the saved object is the raw
  model state dict. -/
  | stateDict (sd : SD)
  /-- a wrapper dict holding both a model and an optimizer state dict under
  the keys `"model_state_dict"` and `"optimizer_state_dict"`. -/
  | wrapped (model_sd optim_sd : SD)
deriving DecidableEq

/-- `AL_Logger.save_proxy` (src/utils/logger.py lines 53-64): the object it
persists is `model.state_dict()` alone — its signature
`save_proxy(self, model, final, epoch)` does not even accept an optimizer. -/
def save_proxy_payload {SD : Type} (model_sd : SD) : CkptPayload SD :=
  .stateDict model_sd

/-- The file stem `save_proxy` writes for a `final=True` checkpoint:
`stem + context + "final" + ".ckpt"` (src/utils/logger.py lines 56-63). -/
def save_proxy_fname (stem context : String) : String :=
  stem ++ context ++ "final" ++ ".ckpt"

/-- The file stem `DropoutRegressor.load_model` reconstructs
(src/regressor/regressor.py lines 95-98). -/
def load_model_fname (stem context : String) : String :=
  stem ++ context ++ "final" ++ ".ckpt"

/-- `DropoutRegressor.load_model`'s reads of the loaded checkpoint
(src/regressor/regressor.py lines 103-105):
`checkpoint["model_state_dict"]` and `checkpoint["optimizer_state_dict"]`;
on a bare state dict these key lookups raise `KeyError` (`none`). -/
def load_model_extract {SD : Type} : CkptPayload SD → Option (SD × SD)
  | .wrapped m o => some (m, o)
  | .stateDict _ => none

/-- Number of parameters of `AL_Logger.save_proxy` besides `self`
(src/utils/logger.py line 53: `model, final, epoch`). -/
def save_proxy_arity : ℕ := 3

/-- Number of arguments `DropoutRegressor.fit` passes to `save_proxy` besides
`self` (src/regressor/regressor.py line 135:
`self.model, self.optimizer, final=False, epoch=epoch`). -/
def fit_save_proxy_call_arity : ℕ := 4

/-- Modelled from the spec's words, for comparison with the code: clause (a)
of the claimed convergence criteria, the held-out error "has been strictly
increasing over the last `history` epochs". -/
def spec_strictly_increasing (hist : List ℚ) (history : ℕ) : Bool :=
  decide ((pyLastSlice hist history).Chain' (· < ·))

/-- A small concrete `DataHandler` state for evaluating the theorems:
normalization enabled, two train rows with raw energies `[0, 2]` stored
normalized as `[0, 1]`, one test row with raw energy `[4]` stored normalized
as `[0]` (degenerate test statistics `max = min = 4`). -/
def sampleDH : DHState :=
  ⟨true, 1, ⟨[[0], [1]], [0, 1]⟩, ⟨1, 2, 2, 0⟩, ⟨[[0], [1]], [0, 1]⟩,
    some ⟨[[5]], [0]⟩, some ⟨4, 0, 4, 4⟩, some ⟨[[5]], [0]⟩⟩

/-- The same concrete state without a test split (as after an "all_train"
initialisation followed by normalization-enabled updates). -/
def sampleDHNoTest : DHState :=
  ⟨true, 1, ⟨[[0], [1]], [0, 1]⟩, ⟨1, 2, 2, 0⟩, ⟨[[0], [1]], [0, 1]⟩,
    none, none, none⟩

/-! ## Helper lemmas -/

/-- Pointwise min-max round trip: denormalizing a normalized value recovers it
whenever the scale `max - min` is nonzero. -/
theorem denormalize_normalize (s : Stats) (h : s.max ≠ s.min) (x : ℚ) :
    DataHandler.denormalize s (DataHandler.normalize s x) = x := by
  unfold DataHandler.denormalize DataHandler.normalize
  rw [div_mul_cancel₀ _ (sub_ne_zero.mpr h)]
  ring

/-- List version of the min-max round trip. -/
theorem denormList_normList (s : Stats) (h : s.max ≠ s.min) (ys : List ℚ) :
    DataHandler.denormalizeList s (DataHandler.normalizeList s ys) = ys := by
  induction ys with
  | nil => rfl
  | cons a t ih =>
    simpa [DataHandler.denormalizeList, DataHandler.normalizeList,
      denormalize_normalize s h a] using ih

/-- Taking the old length out of a mapped append returns the mapped old part. -/
theorem take_map_append (f : ℚ → ℚ) (a b : List ℚ) :
    ((a ++ b).map f).take a.length = a.map f := by
  rw [List.map_append]
  exact List.take_left' (by simp)

/-- A filter and its complementary filter partition a list's length. -/
theorem filter_partition_length {α : Type} (p : α → Bool) (l : List α) :
    (l.filter p).length + (l.filter (fun a => !p a)).length = l.length := by
  induction l with
  | nil => rfl
  | cons a t ih => cases h : p a <;> simp [List.filter_cons, h] <;> omega

/-! ## Claims -/

/-- C3: for every energies tensor `y` and the statistics `s = get_statistics y`,
`denormalize (normalize y s) s = y` (exactly, in ℚ) whenever the operations are
defined, i.e. the min-max scale `s.max - s.min` is nonzero. -/
theorem claim_C3_round_trip (ys : List ℚ)
    (h : (DataHandler.get_statistics ys).max ≠ (DataHandler.get_statistics ys).min) :
    DataHandler.denormalizeList (DataHandler.get_statistics ys)
      (DataHandler.normalizeList (DataHandler.get_statistics ys) ys) = ys :=
  denormList_normList _ h ys

/-- Witness for C3 at the concrete tensor `[0, 2]`. -/
theorem claim_C3_witness :
    (DataHandler.get_statistics [0, 2]).max ≠ (DataHandler.get_statistics [0, 2]).min ∧
    DataHandler.denormalizeList (DataHandler.get_statistics [0, 2])
      (DataHandler.normalizeList (DataHandler.get_statistics [0, 2]) [0, 2]) = [0, 2] :=
  ⟨by norm_num [DataHandler.get_statistics, tmax, tmin, min_def],
   claim_C3_round_trip [0, 2]
     (by norm_num [DataHandler.get_statistics, tmax, tmin, min_def])⟩

/-- C4 (code bug evidence): the non-batched path of `initialize_var_dist_sgpr`
matches the routine's documented formula
`S-bar = L^T (K_uu + σ⁻² K_uv K_vu)⁻¹ L` for all inputs, but the batched path
does not: at `L = 1` (`K_uu = 1`), `K_uv = 1`, clamped noise `σ² = 4` the
formula (and the non-batched path) give `S-bar = 4/5` while the batched path,
which multiplies by the noise instead of dividing, yields `1/5`. -/
theorem claim_C4_batched_sgpr_contradicts_docstring :
    (∀ L kuv noiseRaw noise_lb : ℚ,
      Sgpr.s_nonbatch L kuv noiseRaw noise_lb = Sgpr.sbar_doc L kuv noiseRaw noise_lb) ∧
    Sgpr.s_nonbatch 1 1 4 0 = 4 / 5 ∧
    Sgpr.sbar_doc 1 1 4 0 = 4 / 5 ∧
    Sgpr.s_batch 1 1 4 0 = 1 / 5 ∧
    Sgpr.s_batch 1 1 4 0 ≠ Sgpr.sbar_doc 1 1 4 0 := by
  refine ⟨?_,
    by norm_num [Sgpr.s_nonbatch, Sgpr.s_mat, Sgpr.inner_term_nonbatch, Sgpr.clamp_min],
    by norm_num [Sgpr.sbar_doc, Sgpr.clamp_min],
    by norm_num [Sgpr.s_batch, Sgpr.s_mat, Sgpr.inner_term_batch, Sgpr.clamp_min],
    by norm_num [Sgpr.s_batch, Sgpr.sbar_doc, Sgpr.s_mat, Sgpr.inner_term_batch,
      Sgpr.clamp_min]⟩
  intro L kuv nr lb
  unfold Sgpr.s_nonbatch Sgpr.sbar_doc Sgpr.s_mat Sgpr.inner_term_nonbatch
  rw [show kuv * kuv / Sgpr.clamp_min nr lb + L * L =
    L * L + (Sgpr.clamp_min nr lb)⁻¹ * (kuv * kuv) by ring]
  ring

/-- C6 counterexample: not every Proxy variant reloads the surrogate before
scoring — `ucb.UCB.__call__` (src/proxy/ucb.py lines 21-36) performs no
`load_model` at all. -/
theorem claim_C6_counterexample :
    ucb_UCB_call ∈ proxy_call_traces ∧
    loads_before_score ucb_UCB_call = false ∧
    proxy_call_traces.all loads_before_score = false := by decide

/-- C6 amended: the three Proxy variants of src/proxy/acquisition.py invoke
`load_model` before computing the score on every call, while the `UCB` and
`BotorchUCB` of src/proxy/ucb.py load the model once at construction and their
scoring calls perform no reload. -/
theorem claim_C6_amended_reload_policy :
    loads_before_score acquisition_DropoutRegressor_call = true ∧
    loads_before_score acquisition_UCB_call = true ∧
    loads_before_score acquisition_BotorchUCB_call = true ∧
    ucb_UCB_init = [ProxyEvent.load_model] ∧
    ProxyEvent.load_model ∉ ucb_UCB_call ∧
    ProxyEvent.load_model ∉ ucb_BotorchUCB_call := by decide

/-- C7 (code bug evidence): `load_model` reconstructs exactly the file name
`save_proxy` writes for a final checkpoint, but the object `save_proxy`
persists is the bare `model.state_dict()`, from which `load_model`'s reads of
`checkpoint["model_state_dict"]` / `checkpoint["optimizer_state_dict"]` can
never succeed; moreover `fit` passes `save_proxy` one more argument (the
optimizer) than its signature accepts. -/
theorem claim_C7_checkpoint_roundtrip_broken :
    (∀ stem context : String,
      load_model_fname stem context = save_proxy_fname stem context) ∧
    (∀ (SD : Type) (sd : SD), load_model_extract (save_proxy_payload sd) = none) ∧
    save_proxy_arity ≠ fit_save_proxy_call_arity :=
  ⟨fun _ _ => rfl, fun _ _ => rfl, by decide⟩

/-- C8 counterexample: an unimplemented split policy does raise a fatal
`ValueError`, but its message is the fixed string
"Split type not implemented" — it does not name the offending split string
(here "foo"). -/
theorem claim_C8_counterexample :
    DataHandler.initialise_dataset "foo" [] (1 / 2) false 1 id
        ⟨[[0]], [1], none, none, none, none⟩ =
      Except.error "Split type not implemented" ∧
    ¬ List.IsInfix "foo".toList "Split type not implemented".toList :=
  ⟨rfl, by decide⟩

/-- C8 amended: reaching the split dispatch of `initialise_dataset` with a
policy other than "random", "all_train" or "given" raises the fatal
`ValueError("Split type not implemented")` (a fixed message that does not name
the offending string), and no train/test datasets are created. -/
theorem claim_C8_amended_fixed_message (split : String)
    (h1 : split ≠ "random") (h2 : split ≠ "all_train") (h3 : split ≠ "given")
    (perm : List ℕ) (tf : ℚ) (nd : Bool) (tgt : ℚ) (proxyF : St → St)
    (inp : DataHandler.InitInput) :
    DataHandler.initialise_dataset split perm tf nd tgt proxyF inp =
      Except.error "Split type not implemented" := by
  simp only [DataHandler.initialise_dataset]
  rw [if_neg h1, if_neg h2, if_neg h3]
  rfl

/-- Witness for C8 at the concrete split string "foo". -/
theorem claim_C8_witness :
    ("foo" : String) ≠ "random" ∧ ("foo" : String) ≠ "all_train" ∧
    ("foo" : String) ≠ "given" ∧
    DataHandler.initialise_dataset "foo" [] 1 false 1 id
        ⟨[], [], none, none, none, none⟩ =
      Except.error "Split type not implemented" :=
  ⟨by decide, by decide, by decide,
   claim_C8_amended_fixed_message "foo" (by decide) (by decide) (by decide)
     [] 1 false 1 id ⟨[], [], none, none, none, none⟩⟩

/-- C9: `DropoutRegressor.__init__` asserts `history <= max_epochs` before any
training state exists, so every successfully constructed regressor satisfies
`history ≤ max_epochs`; and whenever the convergence check is evaluated (at an
epoch strictly greater than `history`, with `err_test_hist` holding one entry
per epoch) the window index `hist[-history]` and the two window slices stay
inside `err_test_hist`. -/
theorem claim_C9_history_invariant (eps : ℚ) (max_epochs history : ℕ) :
    (max_epochs < history → DropoutRegressor.init eps max_epochs history = none) ∧
    (∀ c, DropoutRegressor.init eps max_epochs history = some c →
      c.history ≤ c.max_epochs ∧
      ∀ (hist : List ℚ) (epoch : ℕ), hist.length = epoch → c.history < epoch →
        pyNegIdx hist.length c.history < hist.length ∧
        (pyTailAfterNeg hist c.history).length ≤ hist.length ∧
        (pyLastSlice hist c.history).length ≤ hist.length) := by
  constructor
  · intro h
    simp [DropoutRegressor.init, Nat.not_le.mpr h]
  · intro c hc
    unfold DropoutRegressor.init at hc
    by_cases h : history ≤ max_epochs
    · rw [if_pos h] at hc
      cases hc
      refine ⟨h, ?_⟩
      intro hist epoch hlen hlt
      dsimp only at hlt ⊢
      have hpos : 0 < hist.length := by omega
      refine ⟨?_, ?_, ?_⟩
      · unfold pyNegIdx
        split
        · exact hpos
        · omega
      · unfold pyTailAfterNeg pyLastSlice
        split
        · simp
        · split
          · exact Nat.le_refl _
          · simp
      · unfold pyLastSlice
        split
        · exact Nat.le_refl _
        · simp
    · rw [if_neg h] at hc
      cases hc

/-- Witness for C9 at `eps = 1`, `max_epochs = 5`, `history = 3`, evaluated on
a four-entry error history at epoch 4. -/
theorem claim_C9_witness :
    (⟨1, 5, 3⟩ : DropoutRegressor.Config).history ≤
      (⟨1, 5, 3⟩ : DropoutRegressor.Config).max_epochs ∧
    pyNegIdx ([1, 2, 3, 4] : List ℚ).length 3 < ([1, 2, 3, 4] : List ℚ).length := by
  have t := (claim_C9_history_invariant 1 5 3).2 ⟨1, 5, 3⟩ rfl
  exact ⟨t.1, ((t.2 [1, 2, 3, 4] 4 (by decide) (by decide)).1)⟩

/-- Computation of `initialise_dataset` on the "all_train" policy: the whole
dataset becomes the train split and the three test fields are `None`. -/
theorem initialise_all_train_eq (perm : List ℕ) (tf : ℚ) (nd : Bool) (tgt : ℚ)
    (proxyF : St → St) (inp : DataHandler.InitInput) :
    DataHandler.initialise_dataset "all_train" perm tf nd tgt proxyF inp =
      Except.ok
        { normalize_data := nd
          target_factor := tgt
          train_dataset := (DataHandler.preprocess nd proxyF
            ⟨inp.states, DataHandler.scale_by_target_factor tgt inp.scores⟩).1
          train_stats := (DataHandler.preprocess nd proxyF
            ⟨inp.states, DataHandler.scale_by_target_factor tgt inp.scores⟩).2
          train_data := ⟨(DataHandler.preprocess nd proxyF
              ⟨inp.states, DataHandler.scale_by_target_factor tgt inp.scores⟩).1.states,
            (DataHandler.preprocess nd proxyF
              ⟨inp.states, DataHandler.scale_by_target_factor tgt inp.scores⟩).1.energies⟩
          test_dataset := none
          test_stats := none
          test_data := none } := rfl

/-- C10: when `initialise_dataset` runs with split "all_train", the resulting
handler has `test_dataset`, `test_data` and `test_stats` all `None`, and
`get_dataloader` still unconditionally builds the test `DataLoader` over that
`None`, so the returned test loader raises `TypeError` the moment it is
iterated — no usable (train, test) pair is ever produced. -/
theorem claim_C10_all_train_unusable_test_loader (perm : List ℕ) (tf : ℚ)
    (nd : Bool) (tgt : ℚ) (proxyF : St → St) (inp : DataHandler.InitInput)
    (dh : DHState)
    (h : DataHandler.initialise_dataset "all_train" perm tf nd tgt proxyF inp =
      Except.ok dh)
    (bs1 bs2 : ℕ) (sh1 sh2 : Bool) :
    dh.test_dataset = none ∧ dh.test_stats = none ∧ dh.test_data = none ∧
    iterate_loader (DataHandler.get_dataloader dh bs1 bs2 sh1 sh2).2 =
      Except.error "TypeError: object of type NoneType has no len()" := by
  rw [initialise_all_train_eq] at h
  injection h with h
  subst h
  exact ⟨rfl, rfl, rfl, rfl⟩

/-- Witness for C10 on a one-row dataset. -/
theorem claim_C10_witness :
    DataHandler.initialise_dataset "all_train" [] 1 false 1 id
        ⟨[[0]], [1], none, none, none, none⟩ =
      Except.ok (⟨false, 1, ⟨[[0]], [1]⟩, ⟨1, 0, 1, 1⟩, ⟨[[0]], [1]⟩,
        none, none, none⟩ : DHState) ∧
    ((⟨false, 1, ⟨[[0]], [1]⟩, ⟨1, 0, 1, 1⟩, ⟨[[0]], [1]⟩,
        none, none, none⟩ : DHState).test_dataset = none ∧
      (⟨false, 1, ⟨[[0]], [1]⟩, ⟨1, 0, 1, 1⟩, ⟨[[0]], [1]⟩,
        none, none, none⟩ : DHState).test_stats = none ∧
      (⟨false, 1, ⟨[[0]], [1]⟩, ⟨1, 0, 1, 1⟩, ⟨[[0]], [1]⟩,
        none, none, none⟩ : DHState).test_data = none ∧
      iterate_loader (DataHandler.get_dataloader
        (⟨false, 1, ⟨[[0]], [1]⟩, ⟨1, 0, 1, 1⟩, ⟨[[0]], [1]⟩,
          none, none, none⟩ : DHState) 1 1 false false).2 =
        Except.error "TypeError: object of type NoneType has no len()") := by
  have h : DataHandler.initialise_dataset "all_train" [] 1 false 1 id
      ⟨[[0]], [1], none, none, none, none⟩ =
      Except.ok (⟨false, 1, ⟨[[0]], [1]⟩, ⟨1, 0, 1, 1⟩, ⟨[[0]], [1]⟩,
        none, none, none⟩ : DHState) := by
    rw [initialise_all_train_eq]
    norm_num [DataHandler.preprocess, DataHandler.scale_by_target_factor,
      DataHandler.get_statistics, tmean, tmax, tmin, tstdSq]
  exact ⟨h, claim_C10_all_train_unusable_test_loader [] 1 false 1 id
    ⟨[[0]], [1], none, none, none, none⟩ _ h 1 1 false false⟩

/-- Bool-level characterization of the three sequential `if`s of
`check_convergence`. -/
theorem check_convergence_eq (cv : Bool) (hist : List ℚ)
    (epoch history max_epochs : ℕ) (eps : ℚ) :
    DropoutRegressor.check_convergence cv hist epoch history max_epochs eps =
      (decide (max_epochs ≤ epoch) ||
        (DropoutRegressor.secondCriterion hist history eps ||
          (DropoutRegressor.firstCriterion hist history || cv))) := by
  unfold DropoutRegressor.check_convergence
  cases h1 : DropoutRegressor.firstCriterion hist history <;>
    cases h2 : DropoutRegressor.secondCriterion hist history eps <;>
      by_cases h3 : max_epochs ≤ epoch <;>
        simp [h1, h2, h3]

/-- Quantifying over the members of a dropped suffix is quantifying over the
indices past the drop point. -/
theorem forall_mem_drop_iff (l : List ℚ) (k : ℕ) (P : ℚ → Prop) :
    (∀ x ∈ l.drop k, P x) ↔ ∀ i, k ≤ i → i < l.length → P (l.getD i 0) := by
  constructor
  · intro h i hk hi
    have hj : i - k < (l.drop k).length := by
      rw [List.length_drop]; omega
    have he : (l.drop k)[i - k] = l[i] := by
      have h0 := List.getElem?_drop l k (i - k)
      rw [show k + (i - k) = i by omega] at h0
      rw [List.getElem?_eq_getElem hj, List.getElem?_eq_getElem hi] at h0
      exact Option.some.inj h0
    have hm : l[i] ∈ l.drop k := he ▸ List.getElem_mem hj
    have hP := h _ hm
    rwa [List.getD_eq_getElem l 0 hi]
  · intro h x hx
    obtain ⟨j, hj, rfl⟩ := List.getElem_of_mem hx
    have hjlen : j < l.length - k := by rw [List.length_drop] at hj; exact hj
    have hjl : k + j < l.length := by omega
    have he : (l.drop k)[j] = l[k + j] := by
      have h0 := List.getElem?_drop l k j
      rw [List.getElem?_eq_getElem hj, List.getElem?_eq_getElem hjl] at h0
      exact Option.some.inj h0
    rw [he]
    have hP := h (k + j) (Nat.le_add_right _ _) hjl
    rwa [List.getD_eq_getElem l 0 hjl] at hP

/-- Index-level reading of the first convergence criterion, in the call regime
`2 ≤ history < len(err_test_hist)`. -/
theorem firstCriterion_iff (hist : List ℚ) (history : ℕ) (h2 : 2 ≤ history) :
    (DropoutRegressor.firstCriterion hist history = true ↔
      ∀ i, hist.length - (history - 1) ≤ i → i < hist.length →
        hist.getD (hist.length - history) 0 < hist.getD i 0) := by
  unfold DropoutRegressor.firstCriterion pyTailAfterNeg pyLastSlice pyGetNeg pyNegIdx
  simp only [if_neg (show ¬ history = 0 by omega),
    if_neg (show ¬ history - 1 = 0 by omega)]
  rw [List.all_eq_true]
  simp only [decide_eq_true_eq]
  exact forall_mem_drop_iff hist (hist.length - (history - 1)) _

/-- The fit loop only ever reports convergence at an epoch strictly greater
than `history`. -/
theorem fit_aux_converged_gt_history (errs : ℕ → ℚ) (history max_epochs : ℕ)
    (eps : ℚ) :
    ∀ (fuel epoch : ℕ) (hist : List ℚ) (e : ℕ),
      DropoutRegressor.fit_aux errs history max_epochs eps fuel epoch hist =
        some e → history < e := by
  intro fuel
  induction fuel with
  | zero =>
    intro epoch hist e h
    exact absurd h (by simp [DropoutRegressor.fit_aux])
  | succ n ih =>
    intro epoch hist e h
    unfold DropoutRegressor.fit_aux at h
    split at h
    · next hc =>
      cases h
      exact hc.1
    · split at h
      · exact absurd h (by simp)
      · exact ih _ _ _ h

/-- C5 counterexample: at `err_test_hist = [9, 2, 5, 3]`, `epoch = 4`,
`history = 3`, `max_epochs = 10`, `eps = 1/100`, `check_convergence` sets
`converged = 1` (its first criterion fires: both of the last two errors exceed
`hist[-3] = 2`), yet none of the claim's three criteria holds: the errors are
not strictly increasing over the last 3 epochs, the relative-tolerance
criterion is false (both for the code's `hist[-3]` and for the current error
`hist[-1]`), and `max_epochs` is not reached. -/
theorem claim_C5_counterexample :
    DropoutRegressor.check_convergence false [9, 2, 5, 3] 4 3 10 (1 / 100) = true ∧
    spec_strictly_increasing [9, 2, 5, 3] 3 = false ∧
    DropoutRegressor.secondCriterion [9, 2, 5, 3] 3 (1 / 100) = false ∧
    ¬ (|pyGetNeg [9, 2, 5, 3] 1 - npAverage (pyLastSlice [9, 2, 5, 3] 3)| /
        pyGetNeg [9, 2, 5, 3] 1 < 1 / 100) ∧
    ¬ ((10 : ℕ) ≤ 4) := by
  refine ⟨?_, ?_, ?_, ?_, by omega⟩
  · have h1 : DropoutRegressor.firstCriterion [9, 2, 5, 3] 3 = true := by
      norm_num [DropoutRegressor.firstCriterion, pyTailAfterNeg, pyLastSlice,
        pyGetNeg, pyNegIdx]
    simp [DropoutRegressor.check_convergence, h1, ite_self]
  · norm_num [spec_strictly_increasing, pyLastSlice, List.chain'_cons,
      List.chain'_singleton]
  · simp only [DropoutRegressor.secondCriterion, decide_eq_false_iff_not]
    have e1 : pyGetNeg [9, 2, 5, 3] 3 = 2 := by norm_num [pyGetNeg, pyNegIdx]
    have e2 : npAverage (pyLastSlice [9, 2, 5, 3] 3) = 10 / 3 := by
      norm_num [npAverage, pyLastSlice]
    rw [e1, e2, show |(2 : ℚ) - 10 / 3| = 4 / 3 from by norm_num]
    norm_num
  · have e1 : pyGetNeg [9, 2, 5, 3] 1 = 3 := by norm_num [pyGetNeg, pyNegIdx]
    have e2 : npAverage (pyLastSlice [9, 2, 5, 3] 3) = 10 / 3 := by
      norm_num [npAverage, pyLastSlice]
    rw [e1, e2, show |(3 : ℚ) - 10 / 3| = 1 / 3 from by norm_num]
    norm_num

/-- C5 amended: `fit` checks convergence only at epochs strictly greater than
`history`, and (in that call regime, with `2 ≤ history < len(err_test_hist)`)
`check_convergence` sets `converged = 1` exactly when at least one of the
following holds: (a′) each of the last `history - 1` held-out errors strictly
exceeds the error from `history` epochs back — the code's condition, implied
by but strictly weaker than "strictly increasing over the last `history`
epochs" — or (b) the error from `history` epochs back is within `eps`
relative tolerance of the average of the last `history` errors, or (c) the
epoch has reached `max_epochs`. -/
theorem claim_C5_amended_convergence (hist : List ℚ)
    (epoch history max_epochs : ℕ) (eps : ℚ) (errs : ℕ → ℚ)
    (h2 : 2 ≤ history) (hlen : history < hist.length) :
    (DropoutRegressor.check_convergence false hist epoch history max_epochs eps
        = true ↔
      ((∀ i, hist.length - (history - 1) ≤ i → i < hist.length →
          hist.getD (hist.length - history) 0 < hist.getD i 0) ∨
        |hist.getD (hist.length - history) 0 -
            npAverage (hist.drop (hist.length - history))| /
          hist.getD (hist.length - history) 0 < eps ∨
        max_epochs ≤ epoch)) ∧
    (∀ e, DropoutRegressor.fit_converged_epoch errs history max_epochs eps =
        some e → history < e) := by
  constructor
  · rw [check_convergence_eq]
    simp only [Bool.or_false, Bool.or_eq_true, decide_eq_true_eq]
    rw [firstCriterion_iff hist history h2]
    simp only [DropoutRegressor.secondCriterion, decide_eq_true_eq, pyGetNeg,
      pyNegIdx, pyLastSlice, if_neg (show ¬ history = 0 by omega)]
    tauto
  · intro e h
    exact fit_aux_converged_gt_history errs history max_epochs eps
      max_epochs 1 [] e h

/-- Witness for the amended C5 at `err_test_hist = [5, 4, 3, 3]`, `epoch = 4`,
`history = 2`, `max_epochs = 10`, `eps = 1`. -/
theorem claim_C5_witness :
    (2 : ℕ) ≤ 2 ∧ 2 < ([5, 4, 3, 3] : List ℚ).length ∧
    ((DropoutRegressor.check_convergence false [5, 4, 3, 3] 4 2 10 1 = true ↔
        ((∀ i, ([5, 4, 3, 3] : List ℚ).length - (2 - 1) ≤ i →
            i < ([5, 4, 3, 3] : List ℚ).length →
            ([5, 4, 3, 3] : List ℚ).getD (([5, 4, 3, 3] : List ℚ).length - 2) 0 <
              ([5, 4, 3, 3] : List ℚ).getD i 0) ∨
          |([5, 4, 3, 3] : List ℚ).getD (([5, 4, 3, 3] : List ℚ).length - 2) 0 -
              npAverage (([5, 4, 3, 3] : List ℚ).drop
                (([5, 4, 3, 3] : List ℚ).length - 2))| /
            ([5, 4, 3, 3] : List ℚ).getD
              (([5, 4, 3, 3] : List ℚ).length - 2) 0 < 1 ∨
          (10 : ℕ) ≤ 4)) ∧
      (∀ e, DropoutRegressor.fit_converged_epoch (fun _ => 1) 2 10 1 = some e →
        2 < e)) :=
  ⟨by decide, by decide,
   claim_C5_amended_convergence [5, 4, 3, 3] 4 2 10 1 (fun _ => 1)
     (by decide) (by decide)⟩

/-- Projection: `update_dataset` appends the train-routed proxy states to the
train states tensor. -/
theorem update_train_states_eq (dh : DHState) (pf : St → St) (sts : List St)
    (es : List ℚ) (dr : List Bool) :
    (DataHandler.update_dataset dh pf sts es dr).train_dataset.states =
      dh.train_dataset.states ++
        (DataHandler.new_train_items dh pf sts es dr).map (fun p => p.1) := rfl

/-- Projection: the train energies after `update_dataset` with normalization
enabled — the denorm → append → renorm cycle. -/
theorem update_train_energies_norm (dh : DHState) (pf : St → St) (sts : List St)
    (es : List ℚ) (dr : List Bool) (hnorm : dh.normalize_data = true) :
    (DataHandler.update_dataset dh pf sts es dr).train_dataset.energies =
      DataHandler.normalizeList
        (DataHandler.get_statistics
          (DataHandler.denormalizeList dh.train_stats dh.train_dataset.energies ++
            (DataHandler.new_train_items dh pf sts es dr).map (fun p => p.2)))
        (DataHandler.denormalizeList dh.train_stats dh.train_dataset.energies ++
          (DataHandler.new_train_items dh pf sts es dr).map (fun p => p.2)) := by
  simp only [DataHandler.update_dataset, DataHandler.new_train_items, hnorm,
    if_true]

/-- Projection: the train energies after `update_dataset` with normalization
disabled — a plain append. -/
theorem update_train_energies_nonorm (dh : DHState) (pf : St → St)
    (sts : List St) (es : List ℚ) (dr : List Bool)
    (hnorm : dh.normalize_data = false) :
    (DataHandler.update_dataset dh pf sts es dr).train_dataset.energies =
      dh.train_dataset.energies ++
        (DataHandler.new_train_items dh pf sts es dr).map (fun p => p.2) := by
  simp only [DataHandler.update_dataset, DataHandler.new_train_items, hnorm,
    if_false, Bool.false_eq_true]

/-- Projection: the train statistics after `update_dataset` with normalization
enabled are recomputed over the concatenated raw energies. -/
theorem update_train_stats_norm (dh : DHState) (pf : St → St) (sts : List St)
    (es : List ℚ) (dr : List Bool) (hnorm : dh.normalize_data = true) :
    (DataHandler.update_dataset dh pf sts es dr).train_stats =
      DataHandler.get_statistics
        (DataHandler.denormalizeList dh.train_stats dh.train_dataset.energies ++
          (DataHandler.new_train_items dh pf sts es dr).map (fun p => p.2)) := by
  simp only [DataHandler.update_dataset, DataHandler.new_train_items, hnorm,
    if_true]

/-- Projection: the test dataset after `update_dataset` with normalization
enabled, when a test split is present. -/
theorem update_test_dataset_norm (dh : DHState) (pf : St → St) (sts : List St)
    (es : List ℚ) (dr : List Bool) (td : DHData) (ts : Stats)
    (htd : dh.test_dataset = some td) (hts : dh.test_stats = some ts)
    (hnorm : dh.normalize_data = true) :
    (DataHandler.update_dataset dh pf sts es dr).test_dataset =
      some ⟨td.states ++ (DataHandler.new_test_items dh pf sts es dr).map (fun p => p.1),
        DataHandler.normalizeList
          (DataHandler.get_statistics
            (DataHandler.denormalizeList ts td.energies ++
              (DataHandler.new_test_items dh pf sts es dr).map (fun p => p.2)))
          (DataHandler.denormalizeList ts td.energies ++
            (DataHandler.new_test_items dh pf sts es dr).map (fun p => p.2))⟩ := by
  simp only [DataHandler.update_dataset, DataHandler.new_test_items, htd, hts,
    hnorm, if_true, Option.map_some']

/-- Projection: the test statistics after `update_dataset` with normalization
enabled, when a test split is present. -/
theorem update_test_stats_norm (dh : DHState) (pf : St → St) (sts : List St)
    (es : List ℚ) (dr : List Bool) (td : DHData) (ts : Stats)
    (htd : dh.test_dataset = some td) (hts : dh.test_stats = some ts)
    (hnorm : dh.normalize_data = true) :
    (DataHandler.update_dataset dh pf sts es dr).test_stats =
      some (DataHandler.get_statistics
        (DataHandler.denormalizeList ts td.energies ++
          (DataHandler.new_test_items dh pf sts es dr).map (fun p => p.2))) := by
  simp only [DataHandler.update_dataset, DataHandler.new_test_items, htd, hts,
    hnorm, if_true, Option.map_some']

/-- Projection: the test dataset after `update_dataset` with normalization
disabled, when a test split is present. -/
theorem update_test_dataset_nonorm (dh : DHState) (pf : St → St) (sts : List St)
    (es : List ℚ) (dr : List Bool) (td : DHData) (ts : Stats)
    (htd : dh.test_dataset = some td) (hts : dh.test_stats = some ts)
    (hnorm : dh.normalize_data = false) :
    (DataHandler.update_dataset dh pf sts es dr).test_dataset =
      some ⟨td.states ++ (DataHandler.new_test_items dh pf sts es dr).map (fun p => p.1),
        td.energies ++ (DataHandler.new_test_items dh pf sts es dr).map (fun p => p.2)⟩ := by
  simp only [DataHandler.update_dataset, DataHandler.new_test_items, htd, hts,
    hnorm, if_false, Bool.false_eq_true, Option.map_some']

/-- The denorm → append → renorm cycle re-expresses every previously stored
energy at the new scale: denormalizing the prefix at the new statistics gives
back the raw values (the denormalization of the stored prefix at the old
statistics). -/
theorem denorm_renorm_prefix (sOld : Stats) (stored newE : List ℚ)
    (hmax : (DataHandler.get_statistics
        (DataHandler.denormalizeList sOld stored ++ newE)).max ≠
      (DataHandler.get_statistics
        (DataHandler.denormalizeList sOld stored ++ newE)).min) :
    ((DataHandler.normalizeList
        (DataHandler.get_statistics (DataHandler.denormalizeList sOld stored ++ newE))
        (DataHandler.denormalizeList sOld stored ++ newE)).take stored.length).map
      (DataHandler.denormalize
        (DataHandler.get_statistics (DataHandler.denormalizeList sOld stored ++ newE)))
      = stored.map (DataHandler.denormalize sOld) := by
  set s2 := DataHandler.get_statistics
    (DataHandler.denormalizeList sOld stored ++ newE) with hs2
  have hlen : (DataHandler.denormalizeList sOld stored).length = stored.length := by
    simp [DataHandler.denormalizeList]
  rw [DataHandler.normalizeList, ← hlen,
    take_map_append (DataHandler.normalize s2)
      (DataHandler.denormalizeList sOld stored) newE]
  have h := denormList_normList s2 hmax (DataHandler.denormalizeList sOld stored)
  simpa [DataHandler.denormalizeList, DataHandler.normalizeList] using h

/-- C1: with normalization enabled, `update_dataset` denormalizes the stored
train (and test, when present) energies at the pre-call statistics, appends
the new target-factor-scaled energies, recomputes the statistics over the
concatenated raw energies and renormalizes at the new statistics — so every
previously stored row's raw (denormalized) energy after the call equals its
raw energy before the call, merely re-expressed at the new min-max scale
(whenever the new scale is nondegenerate). -/
theorem claim_C1_update_preserves_raw (dh dh' : DHState) (pf : St → St)
    (sts : List St) (es : List ℚ) (dr : List Bool)
    (hdh' : dh' = DataHandler.update_dataset dh pf sts es dr)
    (hnorm : dh.normalize_data = true)
    (hmax : dh'.train_stats.max ≠ dh'.train_stats.min) :
    ((dh'.train_dataset.energies.take dh.train_dataset.energies.length).map
        (DataHandler.denormalize dh'.train_stats) =
      dh.train_dataset.energies.map (DataHandler.denormalize dh.train_stats)) ∧
    (∀ td ts td' ts', dh.test_dataset = some td → dh.test_stats = some ts →
      dh'.test_dataset = some td' → dh'.test_stats = some ts' →
      ts'.max ≠ ts'.min →
      (td'.energies.take td.energies.length).map (DataHandler.denormalize ts') =
        td.energies.map (DataHandler.denormalize ts)) := by
  subst hdh'
  constructor
  · rw [update_train_stats_norm dh pf sts es dr hnorm] at hmax
    rw [update_train_energies_norm dh pf sts es dr hnorm,
      update_train_stats_norm dh pf sts es dr hnorm]
    exact denorm_renorm_prefix dh.train_stats dh.train_dataset.energies _ hmax
  · intro td ts td' ts' htd hts htd' hts' hmax'
    rw [update_test_dataset_norm dh pf sts es dr td ts htd hts hnorm] at htd'
    rw [update_test_stats_norm dh pf sts es dr td ts htd hts hnorm] at hts'
    injection htd' with htd'
    injection hts' with hts'
    subst htd'
    subst hts'
    exact denorm_renorm_prefix ts td.energies _ hmax'

/-- Witness for C1: `sampleDH` updated with one new item (raw energy 0) routed
to test.  The train prefix re-expressed at the new scale still denormalizes
to `[0, 2]`, and the stored test row denormalizes to `4` before and after. -/
theorem claim_C1_witness :
    sampleDH.normalize_data = true ∧
    ((DataHandler.update_dataset sampleDH id [[3]] [0] [true]).train_stats.max ≠
      (DataHandler.update_dataset sampleDH id [[3]] [0] [true]).train_stats.min) ∧
    (((DataHandler.update_dataset sampleDH id [[3]] [0] [true]).train_dataset.energies.take
        sampleDH.train_dataset.energies.length).map
      (DataHandler.denormalize
        (DataHandler.update_dataset sampleDH id [[3]] [0] [true]).train_stats) =
      sampleDH.train_dataset.energies.map
        (DataHandler.denormalize sampleDH.train_stats)) ∧
    (((⟨[[5], [3]], [1, 0]⟩ : DHData).energies.take
        (⟨[[5]], [0]⟩ : DHData).energies.length).map
      (DataHandler.denormalize ⟨2, 8, 4, 0⟩) =
      (⟨[[5]], [0]⟩ : DHData).energies.map
        (DataHandler.denormalize ⟨4, 0, 4, 4⟩)) := by
  have hmax : (DataHandler.update_dataset sampleDH id [[3]] [0] [true]).train_stats.max ≠
      (DataHandler.update_dataset sampleDH id [[3]] [0] [true]).train_stats.min := by
    rw [update_train_stats_norm sampleDH id [[3]] [0] [true] rfl]
    norm_num [sampleDH, DataHandler.get_statistics, DataHandler.new_train_items,
      DataHandler.route, DataHandler.scale_by_target_factor,
      DataHandler.denormalizeList, DataHandler.denormalize, tmax, tmin, min_def]
  have h := claim_C1_update_preserves_raw sampleDH _ id [[3]] [0] [true] rfl rfl hmax
  refine ⟨rfl, hmax, h.1, ?_⟩
  have htd' : (DataHandler.update_dataset sampleDH id [[3]] [0] [true]).test_dataset =
      some ⟨[[5], [3]], [1, 0]⟩ := by
    rw [update_test_dataset_norm sampleDH id [[3]] [0] [true] ⟨[[5]], [0]⟩
      ⟨4, 0, 4, 4⟩ rfl rfl rfl]
    norm_num [DataHandler.new_test_items, DataHandler.route, sampleDH,
      DataHandler.scale_by_target_factor, DataHandler.denormalizeList,
      DataHandler.denormalize, DataHandler.normalizeList, DataHandler.normalize,
      DataHandler.get_statistics, tmax, tmin, min_def]
  have hts' : (DataHandler.update_dataset sampleDH id [[3]] [0] [true]).test_stats =
      some (⟨2, 8, 4, 0⟩ : Stats) := by
    rw [update_test_stats_norm sampleDH id [[3]] [0] [true] ⟨[[5]], [0]⟩
      ⟨4, 0, 4, 4⟩ rfl rfl rfl]
    norm_num [DataHandler.new_test_items, DataHandler.route, sampleDH,
      DataHandler.scale_by_target_factor, DataHandler.denormalizeList,
      DataHandler.denormalize, DataHandler.get_statistics, tmax, tmin, tmean,
      tstdSq, min_def]
  exact h.2 ⟨[[5]], [0]⟩ ⟨4, 0, 4, 4⟩ ⟨[[5], [3]], [1, 0]⟩ ⟨2, 8, 4, 0⟩ rfl rfl
    htd' hts' (by norm_num)

/-- Each new item is routed to exactly one side: the train- and test-routed
item counts partition the item count. -/
theorem new_items_length (dh : DHState) (pf : St → St) (sts : List St)
    (es : List ℚ) (dr : List Bool) (hlen1 : es.length = sts.length)
    (hlen2 : dr.length = sts.length) :
    (DataHandler.new_train_items dh pf sts es dr).length +
      (DataHandler.new_test_items dh pf sts es dr).length = sts.length := by
  have hz : (((sts.map pf).zip
      (DataHandler.scale_by_target_factor dh.target_factor es)).zip dr).length =
      sts.length := by
    simp [List.length_zip, DataHandler.scale_by_target_factor, hlen1, hlen2]
  have h := filter_partition_length
    (fun p : (St × ℚ) × Bool => p.2)
    (((sts.map pf).zip
      (DataHandler.scale_by_target_factor dh.target_factor es)).zip dr)
  simp only [] at h
  unfold DataHandler.new_train_items DataHandler.new_test_items DataHandler.route
  simp only [List.length_map]
  rw [Nat.add_comm, h]
  exact hz

/-- The train energies tensor grows by exactly the train-routed items. -/
theorem update_train_energies_length (dh : DHState) (pf : St → St)
    (sts : List St) (es : List ℚ) (dr : List Bool) :
    (DataHandler.update_dataset dh pf sts es dr).train_dataset.energies.length =
      dh.train_dataset.energies.length +
        (DataHandler.new_train_items dh pf sts es dr).length := by
  rcases Bool.eq_false_or_eq_true dh.normalize_data with hnd | hnd
  · rw [update_train_energies_norm dh pf sts es dr hnd]
    simp [DataHandler.normalizeList, DataHandler.denormalizeList]
  · rw [update_train_energies_nonorm dh pf sts es dr hnd]
    simp

/-- C2 counterexample: on a handler whose `test_dataset` is `None`,
`update_dataset` with two new items (one drawn into the test route) conserves
no row count — the test-routed item is silently dropped — and, with
normalization enabled, the stored train-energy prefix is rescaled rather than
left unchanged. -/
theorem claim_C2_counterexample :
    ((DataHandler.update_dataset sampleDHNoTest id [[9], [7]] [5, 3]
        [true, false]).train_dataset.energies.length +
      (((DataHandler.update_dataset sampleDHNoTest id [[9], [7]] [5, 3]
        [true, false]).test_dataset.map (fun td => td.energies.length)).getD 0) ≠
      sampleDHNoTest.train_dataset.energies.length + 0 + 2) ∧
    (DataHandler.update_dataset sampleDHNoTest id [[9], [7]] [5, 3]
        [true, false]).train_dataset.energies.take
      sampleDHNoTest.train_dataset.energies.length ≠
      sampleDHNoTest.train_dataset.energies := by
  constructor
  · norm_num [DataHandler.update_dataset, sampleDHNoTest, DataHandler.route,
      DataHandler.scale_by_target_factor, DataHandler.denormalizeList,
      DataHandler.denormalize, DataHandler.normalizeList, DataHandler.normalize,
      DataHandler.get_statistics, tmax, tmin, tmean, tstdSq, min_def]
  · norm_num [DataHandler.update_dataset, sampleDHNoTest, DataHandler.route,
      DataHandler.scale_by_target_factor, DataHandler.denormalizeList,
      DataHandler.denormalize, DataHandler.normalizeList, DataHandler.normalize,
      DataHandler.get_statistics, tmax, tmin, tmean, tstdSq, min_def]

/-- C2 amended: when a test split is present, `update_dataset` is append-only:
the combined row count grows by exactly the number of new items, each new
item is appended to exactly one of train or test, the state-tensor prefixes
are unchanged (rows are never dropped or reordered), and the energy-tensor
prefixes are literally unchanged when normalization is disabled (with
normalization enabled the stored prefix is the same raw rows re-expressed at
the new min-max scale, per C1); when the test split is `None`, test-routed
items are silently dropped instead. -/
theorem claim_C2_amended_append (dh dh' : DHState) (pf : St → St)
    (sts : List St) (es : List ℚ) (dr : List Bool) (td : DHData) (ts : Stats)
    (htd : dh.test_dataset = some td) (hts : dh.test_stats = some ts)
    (hlen1 : es.length = sts.length) (hlen2 : dr.length = sts.length)
    (hdh' : dh' = DataHandler.update_dataset dh pf sts es dr) :
    ∃ td', dh'.test_dataset = some td' ∧
      dh'.train_dataset.states =
        dh.train_dataset.states ++
          (DataHandler.new_train_items dh pf sts es dr).map (fun p => p.1) ∧
      td'.states = td.states ++
        (DataHandler.new_test_items dh pf sts es dr).map (fun p => p.1) ∧
      (DataHandler.new_train_items dh pf sts es dr).length +
          (DataHandler.new_test_items dh pf sts es dr).length = sts.length ∧
      dh'.train_dataset.energies.length + td'.energies.length =
        dh.train_dataset.energies.length + td.energies.length + sts.length ∧
      dh'.train_dataset.states.length + td'.states.length =
        dh.train_dataset.states.length + td.states.length + sts.length ∧
      dh'.train_dataset.states.take dh.train_dataset.states.length =
        dh.train_dataset.states ∧
      td'.states.take td.states.length = td.states ∧
      (dh.normalize_data = false →
        dh'.train_dataset.energies.take dh.train_dataset.energies.length =
          dh.train_dataset.energies ∧
        td'.energies.take td.energies.length = td.energies) := by
  subst hdh'
  have hni := new_items_length dh pf sts es dr hlen1 hlen2
  have htel := update_train_energies_length dh pf sts es dr
  rcases Bool.eq_false_or_eq_true dh.normalize_data with hnd | hnd
  · refine ⟨_, update_test_dataset_norm dh pf sts es dr td ts htd hts hnd,
      update_train_states_eq dh pf sts es dr, rfl, hni, ?_, ?_, ?_, ?_, ?_⟩
    · rw [htel]
      simp only [DataHandler.normalizeList, DataHandler.denormalizeList,
        List.length_map, List.length_append]
      omega
    · rw [update_train_states_eq dh pf sts es dr]
      simp only [List.length_append, List.length_map]
      omega
    · rw [update_train_states_eq dh pf sts es dr]
      exact List.take_left _ _
    · exact List.take_left _ _
    · intro hf
      rw [hnd] at hf
      cases hf
  · refine ⟨_, update_test_dataset_nonorm dh pf sts es dr td ts htd hts hnd,
      update_train_states_eq dh pf sts es dr, rfl, hni, ?_, ?_, ?_, ?_, ?_⟩
    · rw [htel]
      simp only [List.length_append, List.length_map]
      omega
    · rw [update_train_states_eq dh pf sts es dr]
      simp only [List.length_append, List.length_map]
      omega
    · rw [update_train_states_eq dh pf sts es dr]
      exact List.take_left _ _
    · exact List.take_left _ _
    · intro _
      exact ⟨by
        rw [update_train_energies_nonorm dh pf sts es dr hnd]
        exact List.take_left _ _,
        List.take_left _ _⟩

/-- Witness for the amended C2 on `sampleDH` with one new item drawn to the
test route. -/
theorem claim_C2_witness :
    sampleDH.test_dataset = some ⟨[[5]], [0]⟩ ∧
    sampleDH.test_stats = some ⟨4, 0, 4, 4⟩ ∧
    ([0] : List ℚ).length = ([[3]] : List St).length ∧
    ([true] : List Bool).length = ([[3]] : List St).length ∧
    ∃ td', (DataHandler.update_dataset sampleDH id [[3]] [0] [true]).test_dataset =
        some td' ∧
      (DataHandler.update_dataset sampleDH id [[3]] [0] [true]).train_dataset.states =
        sampleDH.train_dataset.states ++
          (DataHandler.new_train_items sampleDH id [[3]] [0] [true]).map
            (fun p => p.1) ∧
      td'.states = (⟨[[5]], [0]⟩ : DHData).states ++
        (DataHandler.new_test_items sampleDH id [[3]] [0] [true]).map
          (fun p => p.1) ∧
      (DataHandler.new_train_items sampleDH id [[3]] [0] [true]).length +
          (DataHandler.new_test_items sampleDH id [[3]] [0] [true]).length =
        ([[3]] : List St).length ∧
      (DataHandler.update_dataset sampleDH id [[3]] [0]
            [true]).train_dataset.energies.length + td'.energies.length =
        sampleDH.train_dataset.energies.length +
          (⟨[[5]], [0]⟩ : DHData).energies.length + ([[3]] : List St).length ∧
      (DataHandler.update_dataset sampleDH id [[3]] [0]
            [true]).train_dataset.states.length + td'.states.length =
        sampleDH.train_dataset.states.length +
          (⟨[[5]], [0]⟩ : DHData).states.length + ([[3]] : List St).length ∧
      (DataHandler.update_dataset sampleDH id [[3]] [0]
            [true]).train_dataset.states.take
          sampleDH.train_dataset.states.length = sampleDH.train_dataset.states ∧
      td'.states.take (⟨[[5]], [0]⟩ : DHData).states.length =
        (⟨[[5]], [0]⟩ : DHData).states ∧
      (sampleDH.normalize_data = false →
        (DataHandler.update_dataset sampleDH id [[3]] [0]
              [true]).train_dataset.energies.take
            sampleDH.train_dataset.energies.length =
          sampleDH.train_dataset.energies ∧
        td'.energies.take (⟨[[5]], [0]⟩ : DHData).energies.length =
          (⟨[[5]], [0]⟩ : DHData).energies) :=
  ⟨rfl, rfl, rfl, rfl,
   claim_C2_amended_append sampleDH _ id [[3]] [0] [true] ⟨[[5]], [0]⟩
     ⟨4, 0, 4, 4⟩ rfl rfl rfl rfl rfl⟩
